import Mathlib

/-!
Verification of the safety-validation core of claude-mac-manager
(`claude_mac_manager/safety/protected_paths.py` and
`claude_mac_manager/safety/validator.py`).

The Python code is shallowly embedded:
* exceptions become `Except` values; a Python function that catches all
  exceptions and returns a value becomes a total Lean function;
* the external collaborators (the `pathspec` glob engine, `Path.resolve`
  normalization, the SQLite category store and the OS filesystem calls) are
  modelled as oracles: records of functions returning `Except` values, since
  any of them may raise;
* the code that this repository owns — the containment loop of
  `is_protected_path`, `validate_path_safety`, `DeletionValidator` and its
  methods — is translated statement by statement.
-/

/-- Kinds of Python exceptions distinguished by the `except` clauses of the
source: `OSError`, `PermissionError` (a subclass of `OSError`, but named
separately in the source's handler tuples), and any other exception. -/
inductive PyExc
  | osError
  | permissionError
  | otherExc
deriving DecidableEq, Repr

/-- The protected pattern list `PROTECTED_PATHS` of `protected_paths.py`,
verbatim. -/
def PROTECTED_PATHS : List String :=
  [ "/System/**",
    "/bin/**",
    "/sbin/**",
    "/usr/bin/**",
    "/usr/sbin/**",
    "/usr/lib/**",
    "/private/var/vm/**",
    "~/Documents/**",
    "~/Desktop/**",
    "~/Downloads/**",
    "~/Pictures/**",
    "~/Movies/**",
    "~/Music/**",
    "**/.git/**",
    "**/.github/**",
    "**/.gitlab/**",
    "**/LICENSE",
    "**/README.md",
    "/Applications/**",
    "~/Library/Application Support/**",
    "/etc/**",
    "/Library/**",
    "~/.ssh/**",
    "~/.gnupg/**",
    "~/.aws/**",
    "~/.config/**",
    "**/data/**",
    "**/database/**",
    "**/db/**",
    "**/backup/**",
    "**/backups/**",
    "/Users/Shared/_claude_mac_manager/data/**",
    "/Users/Shared/_claude_mac_manager/config/**",
    "/Users/Shared/_claude_mac_manager/CLAUDE.md",
    "/Users/Shared/_claude_mac_manager/README.md" ]

/-- Python `s.startswith(pre)`, over the character lists of the strings. -/
def strStarts (s pre : String) : Bool :=
  pre.data.isPrefixOf s.data

/-- Helper for Python `sub in s`: does `sub` occur in the list? -/
def hasSubAux (sub : List Char) : List Char → Bool
  | [] => sub.isPrefixOf []
  | c :: rest => sub.isPrefixOf (c :: rest) || hasSubAux sub rest

/-- Python `sub in s` substring test. -/
def strContainsSub (s sub : String) : Bool :=
  hasSubAux sub.data s.data

/-- Helper for Python `s.replace(pat, rep)`: replace non-overlapping
occurrences of `pat` left to right; the fuel argument (instantiated with the
list length) makes the recursion structural. -/
def pyReplaceAux (pat rep : List Char) : Nat → List Char → List Char
  | _, [] => []
  | 0, s => s
  | Nat.succ fuel, c :: rest =>
    if pat.isPrefixOf (c :: rest) then
      rep ++ pyReplaceAux pat rep fuel ((c :: rest).drop pat.length)
    else
      c :: pyReplaceAux pat rep fuel rest

/-- Python `s.replace(pat, rep)` for a non-empty `pat` (the source only
replaces the pattern `/**`). -/
def pyReplace (s pat rep : String) : String :=
  ⟨pyReplaceAux pat.data rep.data s.data.length s.data⟩

/-- Python `os.path.expanduser` restricted to the forms that occur in the
pattern lists: a leading `~/` (or a bare `~`) is replaced by the home
directory. -/
def expanduser (home s : String) : String :=
  if s = "~" then home
  else if strStarts s "~/" then ⟨home.data ++ s.data.drop 1⟩
  else s

/-- The "additional check" loop of `is_protected_path`
(`protected_paths.py` lines 191-198), applied to an already normalized path
string: for every protected pattern containing `**`, drop every occurrence of
`/**`, expand the user home, and report protected when the normalized string
starts with the resulting base (Python `str.startswith`). -/
def containment_check (home normalized_str : String) : Bool :=
  PROTECTED_PATHS.any fun protected_pattern =>
    if strContainsSub protected_pattern "**" then
      let base := pyReplace protected_pattern "/**" ""
      let base := expanduser home base
      strStarts normalized_str base
    else false

/-- Modelled from the spec: a path is a filesystem descendant of a base
exactly when it equals the base or lies strictly below it, i.e. extends it at
a path-segment boundary. This is the spec-side definition of containment
(spec sections 4.2 and 9: "filesystem descendant ... rather than string
prefix"), to be compared with the source's `containment_check`. -/
def isFilesystemDescendant (base p : String) : Bool :=
  p = base || strStarts p (base ++ "/")

/-- Oracle for the external steps of the path classifier: `_normalize_path`
(`expanduser` + `Path.resolve`, which touches the filesystem and may raise)
and the `pathspec` gitwildmatch engine applied to the two pattern lists
(compiling the spec and matching, either of which may raise). `home` is the
value of the current user's home directory used by `os.path.expanduser`. -/
structure PathOracle where
  home : String
  normalize : String → Except PyExc String
  matchProtected : String → Except PyExc Bool
  matchDeletable : String → Except PyExc Bool

/-- `is_protected_path` (`protected_paths.py` lines 156-204): normalize,
test the pathspec matcher, then run the containment loop; the enclosing
`try`/`except Exception` turns any raised exception into `True`. -/
def is_protected_path (o : PathOracle) (path : String) : Bool :=
  match o.normalize path with
  | Except.error _ => true
  | Except.ok normalized_str =>
    match o.matchProtected normalized_str with
    | Except.error _ => true
    | Except.ok true => true
    | Except.ok false => containment_check o.home normalized_str

/-- `is_deletable_category` (`protected_paths.py` lines 207-240): normalize
and test the deletable pathspec matcher; the enclosing
`try`/`except Exception` turns any raised exception into `False`. -/
def is_deletable_category (o : PathOracle) (path : String) : Bool :=
  match o.normalize path with
  | Except.error _ => false
  | Except.ok normalized_str =>
    match o.matchDeletable normalized_str with
    | Except.error _ => false
    | Except.ok b => b

/-- The two raise sites of `validate_path_safety`. Both raise the single
Python class `ProtectedPathError`; the constructors distinguish the two
raise sites and their distinct messages ("Cannot delete protected path"
versus "Path does not match any deletable category"). -/
inductive ProtectedPathErr
  | protectedPath (path : String)
  | notDeletableCategory (path : String)
deriving DecidableEq, Repr

/-- `validate_path_safety` (`protected_paths.py` lines 243-279). -/
def validate_path_safety (o : PathOracle) (path : String) :
    Except ProtectedPathErr Unit :=
  if is_protected_path o path then
    Except.error (ProtectedPathErr.protectedPath path)
  else if !(is_deletable_category o path) then
    Except.error (ProtectedPathErr.notDeletableCategory path)
  else
    Except.ok ()

/-- A row of the `categories` table as `_check_category_permissions` reads
it (`SELECT name, is_deletable, restoration_command, priority`). -/
structure CategoryInfo where
  name : String
  is_deletable : Bool
  restoration_command : Option String
  priority : Int
deriving DecidableEq, Repr

/-- The category store: `database_path.exists()` together with the SQLite
query of `_check_category_permissions`, which may raise, return no row
(`fetchone()` is `None`), or return a row. -/
structure Database where
  store_exists : Bool
  query : String → Except PyExc (Option CategoryInfo)

/-- `DeletionValidator._check_category_permissions` (`validator.py` lines
222-259): `None` when the store file is missing, when the query raises, or
when the row is absent; the row otherwise. -/
def check_category_permissions (db : Database) (category_name : String) :
    Option CategoryInfo :=
  if !db.store_exists then none
  else
    match db.query category_name with
    | Except.ok row => row
    | Except.error _ => none

/-- One event of the `os.walk` iteration as `_calculate_directory_size`
consumes it: either a joined `dirpath/filename` entry processed by the inner
loop, or an exception raised by the iterator itself, which ends the walk. -/
inductive WalkStep
  | file (filepath : String)
  | abort (e : PyExc)
deriving DecidableEq, Repr

/-- The OS filesystem calls used by `DeletionValidator`.
`access_nonexistent` records the documented behavior of `os.access`: it
raises nothing for a plain missing path and returns `False` when the path
does not exist. -/
structure FileSystem where
  path_exists : String → Bool
  access_r : String → Except PyExc Bool
  is_file : String → Bool
  is_dir : String → Bool
  getsize : String → Except PyExc Nat
  walk : String → List WalkStep
  access_nonexistent : ∀ p, path_exists p = false → access_r p = Except.ok false

/-- The loop body of `_calculate_directory_size` (`validator.py` lines
273-286): the inner `try` adds `os.path.getsize` for each entry that
`os.path.exists`, its `except (OSError, PermissionError)` skips the entry;
an `OSError`/`PermissionError` raised by the walk iterator is absorbed by
the outer `except`, keeping the partial total; any other exception
propagates out of the function. -/
def walkTotal (fs : FileSystem) : List WalkStep → Nat → Except PyExc Nat
  | [], total => Except.ok total
  | WalkStep.file filepath :: rest, total =>
    if fs.path_exists filepath then
      match fs.getsize filepath with
      | Except.ok n => walkTotal fs rest (total + n)
      | Except.error PyExc.osError => walkTotal fs rest total
      | Except.error PyExc.permissionError => walkTotal fs rest total
      | Except.error PyExc.otherExc => Except.error PyExc.otherExc
    else walkTotal fs rest total
  | WalkStep.abort e :: _, total =>
    match e with
    | PyExc.osError => Except.ok total
    | PyExc.permissionError => Except.ok total
    | PyExc.otherExc => Except.error PyExc.otherExc

/-- `DeletionValidator._calculate_directory_size` (`validator.py` lines
261-288). -/
def calculate_directory_size (fs : FileSystem) (path : String) :
    Except PyExc Nat :=
  walkTotal fs (fs.walk path) 0

/-- Modelled from the spec ("recursively sum sizes of all regular files
reachable under it, skipping (not failing) individual entries that raise
permission or I/O errors"): the spec-side sum over a walk, skipping every
entry whose size lookup fails. -/
def reachableSizesSum (fs : FileSystem) : List WalkStep → Nat
  | [] => 0
  | WalkStep.file f :: rest =>
    (if fs.path_exists f then
      match fs.getsize f with
      | Except.ok n => n
      | Except.error _ => 0
    else 0) + reachableSizesSum fs rest
  | WalkStep.abort _ :: rest => reachableSizesSum fs rest

/-- The layer-tagged error messages appended to `ValidationResult.errors`
by `validate_deletion`, as tagged data (the f-string renderings carry the
same information). -/
inductive ErrMsg
  | layer1 (e : ProtectedPathErr)
  | layer2CategoryNotFound (category : String)
  | layer2CategoryNotDeletable (category : String)
  | layer6PermissionDenied (path : String)
  | layer6CheckError (e : PyExc)
deriving DecidableEq, Repr

/-- The warning messages appended to `ValidationResult.warnings` by
`validate_deletion`, as tagged data. -/
inductive WarnMsg
  | noCategorySpecified
  | noRestorationMethod
  | couldNotCalculateSize (e : PyExc)
  | dryRunMode
deriving DecidableEq, Repr

/-- The `ValidationResult` dataclass of `validator.py` (the
`__post_init__` fixup of the two `None` list defaults is folded into always
starting from empty lists, which is the only way the class is used). -/
structure ValidationResult where
  valid : Bool
  path : String
  category : Option String
  size_bytes : Nat
  is_deletable : Bool
  restoration_command : Option String
  warnings : List WarnMsg
  errors : List ErrMsg
deriving DecidableEq, Repr

/-- Construction-time state of `DeletionValidator` (its `database_path`
handle is modelled as the `Database` it reaches). -/
structure DeletionValidator where
  dry_run : Bool
  require_confirmation : Bool
  database : Database

/-- The OS-side world `validate_deletion` touches: the path-classifier
oracle of Layer 1 and the filesystem calls of Layers 6 and size
accounting. -/
structure World where
  oracle : PathOracle
  fs : FileSystem

/-- `DeletionValidator.enforce_dry_run` (`validator.py` lines 206-220):
raises `DryRunViolationError` exactly when `self.dry_run` is false. -/
def enforce_dry_run (v : DeletionValidator) : Except Unit Unit :=
  if !v.dry_run then Except.error () else Except.ok ()

/-- The Layer-4 test `not result.restoration_command or
result.restoration_command == "N/A"` (Python truthiness: `None` and the
empty string are falsy). -/
def restorationMissing : Option String → Bool
  | none => true
  | some s => s = "" || s = "N/A"

/-- Layer 2 of `validate_deletion` (`validator.py` lines 148-166): `inl`
is an early return with a hard error, `inr` continues with the updated
result. -/
def layer2 (v : DeletionValidator) (category : Option String)
    (result : ValidationResult) : ValidationResult ⊕ ValidationResult :=
  match category with
  | some cat =>
    match check_category_permissions v.database cat with
    | none =>
      Sum.inl { result with
        errors := result.errors ++ [ErrMsg.layer2CategoryNotFound cat] }
    | some category_info =>
      if !category_info.is_deletable then
        Sum.inl { result with
          errors := result.errors ++ [ErrMsg.layer2CategoryNotDeletable cat] }
      else
        Sum.inr { result with
          is_deletable := true,
          restoration_command := category_info.restoration_command }
  | none =>
    Sum.inr { result with
      warnings := result.warnings ++ [WarnMsg.noCategorySpecified] }

/-- Layer 4 of `validate_deletion` (`validator.py` lines 168-173): append
the no-restoration warning; non-fatal. -/
def layer4 (result : ValidationResult) : ValidationResult :=
  if restorationMissing result.restoration_command then
    { result with warnings := result.warnings ++ [WarnMsg.noRestorationMethod] }
  else result

/-- The size-accounting block of `validate_deletion` (`validator.py` lines
186-193): `try: if isfile ... elif isdir ... except Exception: warning`. -/
def sizeStep (w : World) (path : String) (result : ValidationResult) :
    ValidationResult :=
  if w.fs.is_file path then
    match w.fs.getsize path with
    | Except.ok n => { result with size_bytes := n }
    | Except.error e =>
      { result with warnings := result.warnings ++ [WarnMsg.couldNotCalculateSize e] }
  else if w.fs.is_dir path then
    match calculate_directory_size w.fs path with
    | Except.ok n => { result with size_bytes := n }
    | Except.error e =>
      { result with warnings := result.warnings ++ [WarnMsg.couldNotCalculateSize e] }
  else result

/-- The finalization of `validate_deletion` (`validator.py` lines 195-204):
set `valid = True` and append the dry-run warning when applicable. -/
def finalizeStep (v : DeletionValidator) (result : ValidationResult) :
    ValidationResult :=
  let result := { result with valid := true }
  if v.dry_run then
    { result with warnings := result.warnings ++ [WarnMsg.dryRunMode] }
  else result

/-- Layer 6 of `validate_deletion` (`validator.py` lines 175-184) followed
by size accounting and finalization when the path is readable. -/
def layer6onward (w : World) (v : DeletionValidator) (path : String)
    (result : ValidationResult) : ValidationResult :=
  match w.fs.access_r path with
  | Except.ok false =>
    { result with errors := result.errors ++ [ErrMsg.layer6PermissionDenied path] }
  | Except.error e =>
    { result with errors := result.errors ++ [ErrMsg.layer6CheckError e] }
  | Except.ok true => finalizeStep v (sizeStep w path result)

/-- The fresh `ValidationResult` constructed at the top of
`validate_deletion` (`validator.py` line 139). -/
def initResult (path : String) (category : Option String) : ValidationResult :=
  { valid := false, path := path, category := category, size_bytes := 0,
    is_deletable := false, restoration_command := none,
    warnings := [], errors := [] }

/-- `DeletionValidator.validate_deletion` (`validator.py` lines 109-204). -/
def validate_deletion (w : World) (v : DeletionValidator) (path : String)
    (category : Option String) : ValidationResult :=
  match validate_path_safety w.oracle path with
  | Except.error e =>
    { initResult path category with
      errors := (initResult path category).errors ++ [ErrMsg.layer1 e] }
  | Except.ok _ =>
    match layer2 v category (initResult path category) with
    | Sum.inl r => r
    | Sum.inr r => layer6onward w v path (layer4 r)

/-- `DeletionValidator.validate_batch` (`validator.py` lines 290-307). -/
def validate_batch (w : World) (v : DeletionValidator) (paths : List String)
    (category : Option String) : List ValidationResult :=
  paths.map fun path => validate_deletion w v path category

/-! ### Shared concrete instances used by witnesses -/

/-- A category store whose backing file does not exist. -/
def dbEmpty : Database :=
  { store_exists := false, query := fun _ => Except.ok none }

/-- A category store holding a single deletable `node_modules` row. -/
def dbNode : Database :=
  { store_exists := true,
    query := fun n =>
      Except.ok (if n = "node_modules" then
        some { name := "node_modules", is_deletable := true,
               restoration_command := some "npm install", priority := 90 }
      else none) }

/-- An oracle whose normalization step raises. -/
def oracleNormFails : PathOracle :=
  { home := "/Users/vmks",
    normalize := fun _ => Except.error PyExc.otherExc,
    matchProtected := fun _ => Except.ok false,
    matchDeletable := fun _ => Except.ok false }

/-- An oracle whose pattern-matching steps raise (normalization is the
identity). -/
def oracleMatchFails : PathOracle :=
  { home := "/Users/vmks",
    normalize := fun s => Except.ok s,
    matchProtected := fun _ => Except.error PyExc.otherExc,
    matchDeletable := fun _ => Except.error PyExc.otherExc }

/-- An oracle for which the glob engine reports every path as protected. -/
def oracleProtected : PathOracle :=
  { home := "/Users/vmks",
    normalize := fun s => Except.ok s,
    matchProtected := fun _ => Except.ok true,
    matchDeletable := fun _ => Except.ok false }

/-- An oracle for which the glob engine reports no path as protected and
every path as deletable (normalization is the identity). -/
def oracleDeletable : PathOracle :=
  { home := "/Users/vmks",
    normalize := fun s => Except.ok s,
    matchProtected := fun _ => Except.ok false,
    matchDeletable := fun _ => Except.ok true }

/-- An oracle for which the glob engine reports no match at all. -/
def oracleNoMatch : PathOracle :=
  { home := "/Users/vmks",
    normalize := fun s => Except.ok s,
    matchProtected := fun _ => Except.ok false,
    matchDeletable := fun _ => Except.ok false }

/-! ### Theorems for the claims -/

/-- Claim C1, counterexample: `enforce_dry_run` on a validator constructed
with `dry_run = true` succeeds, and on one constructed with
`dry_run = false` it fails — the opposite of what the claim (following
spec section 8) states. -/
theorem claim_C1_counterexample :
    enforce_dry_run
      { dry_run := true, require_confirmation := true, database := dbEmpty } =
      Except.ok () ∧
    enforce_dry_run
      { dry_run := false, require_confirmation := true, database := dbEmpty } =
      Except.error () :=
  ⟨rfl, rfl⟩

/-- Claim C1 (amended): `enforce_dry_run` on a validator constructed with
`dry_run = false` fails with `DryRunViolationError`, and on one constructed
with `dry_run = true` it succeeds without failure (as spec section 4.3 and
the method's docstring state). -/
theorem claim_C1_amended :
    ∀ (rc : Bool) (db : Database),
      enforce_dry_run
        { dry_run := false, require_confirmation := rc, database := db } =
        Except.error () ∧
      enforce_dry_run
        { dry_run := true, require_confirmation := rc, database := db } =
        Except.ok () :=
  fun _ _ => ⟨rfl, rfl⟩

/-- Claim C3 (code bug): evaluation of the code at the failing input. The
containment loop of `is_protected_path` classifies the normalized path
`/etc2/config` as protected (its string starts with the literal base `/etc`
of the pattern `/etc/**`), although `/etc2/config` is not a filesystem
descendant of `/etc`; consequently `is_protected_path` reports the path
protected whatever the glob engine answers for it. -/
theorem claim_C3_code_eval :
    containment_check "/Users/vmks" "/etc2/config" = true ∧
    isFilesystemDescendant "/etc" "/etc2/config" = false ∧
    (∀ (m : Bool) (d : String → Except PyExc Bool),
      is_protected_path
        { home := "/Users/vmks", normalize := fun s => Except.ok s,
          matchProtected := fun _ => Except.ok m, matchDeletable := d }
        "/etc2/config" = true) := by
  refine ⟨by decide, by decide, ?_⟩
  intro m d
  cases m with
  | false =>
    exact (by decide :
      containment_check "/Users/vmks" "/etc2/config" = true)
  | true => rfl

/-- Claim C4: the two classifier operations fail safe in opposite
directions. If normalization raises, `is_protected_path` returns `true` and
`is_deletable_category` returns `false`; if the protected-pattern match
raises, `is_protected_path` returns `true`; if the deletable-pattern match
raises, `is_deletable_category` returns `false`. Neither operation can
propagate an exception: both are total functions into `Bool`. -/
theorem claim_C4_fail_safe (o : PathOracle) (path : String) :
    (∀ e, o.normalize path = Except.error e →
      is_protected_path o path = true ∧ is_deletable_category o path = false) ∧
    (∀ n e, o.normalize path = Except.ok n →
      o.matchProtected n = Except.error e → is_protected_path o path = true) ∧
    (∀ n e, o.normalize path = Except.ok n →
      o.matchDeletable n = Except.error e →
      is_deletable_category o path = false) := by
  refine ⟨?_, ?_, ?_⟩
  · intro e h
    unfold is_protected_path is_deletable_category
    rw [h]
    exact ⟨rfl, rfl⟩
  · intro n e hn hm
    simp [is_protected_path, hn, hm]
  · intro n e hn hm
    simp [is_deletable_category, hn, hm]

/-- Claim C4, witness: concrete oracles whose normalization step
(respectively pattern-matching step) raises, on which `is_protected_path`
evaluates to `true` and `is_deletable_category` to `false`. -/
theorem claim_C4_witness :
    (is_protected_path oracleNormFails "/tmp/x" = true ∧
      is_deletable_category oracleNormFails "/tmp/x" = false) ∧
    is_protected_path oracleMatchFails "/tmp/x" = true ∧
    is_deletable_category oracleMatchFails "/tmp/x" = false :=
  ⟨(claim_C4_fail_safe oracleNormFails "/tmp/x").1 PyExc.otherExc rfl,
   (claim_C4_fail_safe oracleMatchFails "/tmp/x").2.1 "/tmp/x" PyExc.otherExc
     rfl rfl,
   (claim_C4_fail_safe oracleMatchFails "/tmp/x").2.2 "/tmp/x" PyExc.otherExc
     rfl rfl⟩

/-- Claim C5: `validate_path_safety` fails with the protected-path error
when `is_protected_path` is true; fails with the distinct
not-deletable-category error when `is_protected_path` is false and
`is_deletable_category` is false; and succeeds with no value when
`is_protected_path` is false and `is_deletable_category` is true. -/
theorem claim_C5_validate_path_safety (o : PathOracle) (path : String) :
    (is_protected_path o path = true →
      validate_path_safety o path =
        Except.error (ProtectedPathErr.protectedPath path)) ∧
    (is_protected_path o path = false → is_deletable_category o path = false →
      validate_path_safety o path =
        Except.error (ProtectedPathErr.notDeletableCategory path)) ∧
    (is_protected_path o path = false → is_deletable_category o path = true →
      validate_path_safety o path = Except.ok ()) := by
  refine ⟨fun h => ?_, fun h h2 => ?_, fun h h2 => ?_⟩
  · unfold validate_path_safety
    simp [h]
  · unfold validate_path_safety
    simp [h, h2]
  · unfold validate_path_safety
    simp [h, h2]

/-- Claim C5, witness: the three branches of `validate_path_safety` reached
on concrete oracles and the path `/tmp/x` (for which the containment loop
reports no match). -/
theorem claim_C5_witness :
    validate_path_safety oracleProtected "/tmp/x" =
      Except.error (ProtectedPathErr.protectedPath "/tmp/x") ∧
    validate_path_safety oracleNoMatch "/tmp/x" =
      Except.error (ProtectedPathErr.notDeletableCategory "/tmp/x") ∧
    validate_path_safety oracleDeletable "/tmp/x" = Except.ok () :=
  ⟨(claim_C5_validate_path_safety oracleProtected "/tmp/x").1 rfl,
   (claim_C5_validate_path_safety oracleNoMatch "/tmp/x").2.1
     (by decide) (by decide),
   (claim_C5_validate_path_safety oracleDeletable "/tmp/x").2.2
     (by decide) (by decide)⟩

/-! ### Helper lemmas about the layers of `validate_deletion` -/

/-- Layer 2 early returns keep `valid`, `path`, `category`, `size_bytes`
and `warnings`-independent fields of the incoming result. -/
theorem layer2_inl_spec {v : DeletionValidator} {c : Option String}
    {r0 r : ValidationResult} (h : layer2 v c r0 = Sum.inl r) :
    r.valid = r0.valid ∧ r.path = r0.path ∧ r.category = r0.category ∧
    r.size_bytes = r0.size_bytes := by
  unfold layer2 at h
  cases c with
  | none => simp at h
  | some cat =>
    cases hq : check_category_permissions v.database cat with
    | none =>
      simp [hq] at h
      subst h
      exact ⟨rfl, rfl, rfl, rfl⟩
    | some info =>
      cases hd : info.is_deletable with
      | false =>
        simp [hq, hd] at h
        subst h
        exact ⟨rfl, rfl, rfl, rfl⟩
      | true => simp [hq, hd] at h

/-- Layer 2 continuations keep `valid`, `errors`, `path`, `category` and
`size_bytes` of the incoming result. -/
theorem layer2_inr_spec {v : DeletionValidator} {c : Option String}
    {r0 r : ValidationResult} (h : layer2 v c r0 = Sum.inr r) :
    r.valid = r0.valid ∧ r.errors = r0.errors ∧ r.path = r0.path ∧
    r.category = r0.category ∧ r.size_bytes = r0.size_bytes := by
  unfold layer2 at h
  cases c with
  | none =>
    simp at h
    subst h
    exact ⟨rfl, rfl, rfl, rfl, rfl⟩
  | some cat =>
    cases hq : check_category_permissions v.database cat with
    | none => simp [hq] at h
    | some info =>
      cases hd : info.is_deletable with
      | false => simp [hq, hd] at h
      | true =>
        simp [hq, hd] at h
        subst h
        exact ⟨rfl, rfl, rfl, rfl, rfl⟩

/-- Layer 4 only appends a warning: every other field is unchanged. -/
theorem layer4_spec (r : ValidationResult) :
    (layer4 r).valid = r.valid ∧ (layer4 r).errors = r.errors ∧
    (layer4 r).path = r.path ∧ (layer4 r).category = r.category ∧
    (layer4 r).size_bytes = r.size_bytes := by
  unfold layer4
  split <;> exact ⟨rfl, rfl, rfl, rfl, rfl⟩

/-- The size-accounting step never touches `valid`, `errors`, `path` or
`category`. -/
theorem sizeStep_spec (w : World) (path : String) (r : ValidationResult) :
    (sizeStep w path r).valid = r.valid ∧ (sizeStep w path r).errors = r.errors ∧
    (sizeStep w path r).path = r.path ∧
    (sizeStep w path r).category = r.category := by
  unfold sizeStep
  split
  · split <;> exact ⟨rfl, rfl, rfl, rfl⟩
  · split
    · split <;> exact ⟨rfl, rfl, rfl, rfl⟩
    · exact ⟨rfl, rfl, rfl, rfl⟩

/-- Finalization sets `valid` to true and never touches `errors`, `path`,
`category` or `size_bytes`. -/
theorem finalizeStep_spec (v : DeletionValidator) (r : ValidationResult) :
    (finalizeStep v r).valid = true ∧ (finalizeStep v r).errors = r.errors ∧
    (finalizeStep v r).path = r.path ∧
    (finalizeStep v r).category = r.category ∧
    (finalizeStep v r).size_bytes = r.size_bytes := by
  unfold finalizeStep
  split <;> exact ⟨rfl, rfl, rfl, rfl, rfl⟩

/-- A filesystem on which every path exists and is readable, and nothing
is a file or directory. -/
def fsAllReadable : FileSystem :=
  { path_exists := fun _ => true,
    access_r := fun _ => Except.ok true,
    is_file := fun _ => false,
    is_dir := fun _ => false,
    getsize := fun _ => Except.ok 0,
    walk := fun _ => [],
    access_nonexistent := fun _ h => Bool.noConfusion h }

/-- The world whose glob engine reports every path protected. -/
def worldProtected : World :=
  { oracle := oracleProtected, fs := fsAllReadable }

/-- The world whose glob engine reports every path deletable and none
protected. -/
def worldOk : World :=
  { oracle := oracleDeletable, fs := fsAllReadable }

/-- Claim C2: when `is_protected_path` holds, `validate_deletion` returns
the fully determined Layer-1 failure — `valid = false`, the single Layer-1
protected-path error, no warnings, `size_bytes = 0` — for every supplied
category. The right-hand side does not depend on the validator `v` (hence
not on its category store): the registry is never queried, and no later
layer contributes anything. -/
theorem claim_C2_protected_blocks (w : World) (v : DeletionValidator)
    (path : String) (category : Option String)
    (h : is_protected_path w.oracle path = true) :
    validate_deletion w v path category =
      { valid := false, path := path, category := category, size_bytes := 0,
        is_deletable := false, restoration_command := none, warnings := [],
        errors := [ErrMsg.layer1 (ProtectedPathErr.protectedPath path)] } := by
  have hps : validate_path_safety w.oracle path =
      Except.error (ProtectedPathErr.protectedPath path) := by
    unfold validate_path_safety
    simp [h]
  unfold validate_deletion
  rw [hps]
  rfl

/-- Claim C2, witness: a protected path with a category that exists in the
registry and is deletable is still blocked at Layer 1 with exactly the
protected-path error. -/
theorem claim_C2_witness :
    is_protected_path oracleProtected "/Users/vmks/Documents/proj" = true ∧
    validate_deletion worldProtected
      { dry_run := true, require_confirmation := true, database := dbNode }
      "/Users/vmks/Documents/proj" (some "node_modules") =
      { valid := false, path := "/Users/vmks/Documents/proj",
        category := some "node_modules", size_bytes := 0,
        is_deletable := false, restoration_command := none, warnings := [],
        errors := [ErrMsg.layer1
          (ProtectedPathErr.protectedPath "/Users/vmks/Documents/proj")] } :=
  ⟨rfl,
   claim_C2_protected_blocks worldProtected
     { dry_run := true, require_confirmation := true, database := dbNode }
     "/Users/vmks/Documents/proj" (some "node_modules") rfl⟩

/-- Layer 6 onward: when the incoming result is not yet valid, a final
`valid = true` can only come out of the readable branch, which never
appends an error. -/
theorem layer6onward_valid_no_errors (w : World) (v : DeletionValidator)
    (path : String) (r : ValidationResult) (hr : r.valid = false) :
    (layer6onward w v path r).valid = true →
    (layer6onward w v path r).errors = r.errors := by
  unfold layer6onward
  cases ha : w.fs.access_r path with
  | error e =>
    intro hv
    have hv2 : r.valid = true := hv
    rw [hr] at hv2
    exact Bool.noConfusion hv2
  | ok b =>
    cases b with
    | false =>
      intro hv
      have hv2 : r.valid = true := hv
      rw [hr] at hv2
      exact Bool.noConfusion hv2
    | true =>
      intro _
      calc (finalizeStep v (sizeStep w path r)).errors
          = (sizeStep w path r).errors := (finalizeStep_spec v _).2.1
        _ = r.errors := (sizeStep_spec w path r).2.1

/-- Claim C6: every result of `validate_deletion`, and hence every element
of `validate_batch`, satisfies the invariant that `valid = true` implies
the error list is empty. -/
theorem claim_C6_valid_no_errors (w : World) (v : DeletionValidator) :
    (∀ path category,
      (validate_deletion w v path category).valid = true →
      (validate_deletion w v path category).errors = []) ∧
    (∀ paths category r, r ∈ validate_batch w v paths category →
      r.valid = true → r.errors = []) := by
  have single : ∀ path category,
      (validate_deletion w v path category).valid = true →
      (validate_deletion w v path category).errors = [] := by
    intro path category
    unfold validate_deletion
    cases hps : validate_path_safety w.oracle path with
    | error e =>
      intro hv
      have hv2 : (initResult path category).valid = true := hv
      exact Bool.noConfusion hv2
    | ok u =>
      cases h2 : layer2 v category (initResult path category) with
      | inl r =>
        intro hv
        have hv2 : r.valid = true := hv
        rw [(layer2_inl_spec h2).1] at hv2
        exact Bool.noConfusion hv2
      | inr r =>
        intro hv
        have hrv : (layer4 r).valid = false := by
          rw [(layer4_spec r).1, (layer2_inr_spec h2).1]
          rfl
        have he := layer6onward_valid_no_errors w v path (layer4 r) hrv hv
        rw [he, (layer4_spec r).2.1, (layer2_inr_spec h2).2.1]
        rfl
  refine ⟨single, ?_⟩
  intro paths category r hmem hv
  unfold validate_batch at hmem
  obtain ⟨p, _, rfl⟩ := List.mem_map.mp hmem
  exact single p category hv

/-- Claim C6, witness: a concrete validation that comes out `valid = true`
has an empty error list, both standalone and as a batch element. -/
theorem claim_C6_witness :
    (validate_deletion worldOk
      { dry_run := true, require_confirmation := true, database := dbNode }
      "/tmp/x" none).valid = true ∧
    (validate_deletion worldOk
      { dry_run := true, require_confirmation := true, database := dbNode }
      "/tmp/x" none).errors = [] :=
  ⟨by decide,
   (claim_C6_valid_no_errors worldOk
     { dry_run := true, require_confirmation := true, database := dbNode }).2
     ["/tmp/x"] none _
     (by simp [validate_batch]) (by decide)⟩

/-- Layer 2 with a supplied category whose registry lookup yields nothing
returns early with exactly the category-not-found error. -/
theorem layer2_not_found {v : DeletionValidator} {cat : String}
    {r0 : ValidationResult} (h : check_category_permissions v.database cat = none) :
    layer2 v (some cat) r0 =
      Sum.inl { r0 with
        errors := r0.errors ++ [ErrMsg.layer2CategoryNotFound cat] } := by
  simp [layer2, h]

/-- Layer 2 with a supplied category found deletable continues, copying
the restoration command. -/
theorem layer2_found_deletable {v : DeletionValidator} {cat : String}
    {r0 : ValidationResult} {info : CategoryInfo}
    (h : check_category_permissions v.database cat = some info)
    (hd : info.is_deletable = true) :
    layer2 v (some cat) r0 =
      Sum.inr { r0 with
        is_deletable := true,
        restoration_command := info.restoration_command } := by
  simp [layer2, h, hd]

/-- Layer 2 with no supplied category continues with only a warning. -/
theorem layer2_no_category (v : DeletionValidator) (r0 : ValidationResult) :
    layer2 v none r0 =
      Sum.inr { r0 with
        warnings := r0.warnings ++ [WarnMsg.noCategorySpecified] } :=
  rfl

/-- Claim C7: when Layer 1 passes and the registry lookup for the supplied
category yields nothing, `validate_deletion` returns immediately with the
single Layer-2 category-not-found error, `is_deletable` still false and no
restoration command; and the lookup yields nothing in each of the three
cases — store file missing, row absent, and query raising — so a missing
store never surfaces as a distinct error. -/
theorem claim_C7_category_not_found (w : World) (v : DeletionValidator)
    (path cat : String)
    (h1 : validate_path_safety w.oracle path = Except.ok ())
    (h2 : check_category_permissions v.database cat = none) :
    validate_deletion w v path (some cat) =
      { valid := false, path := path, category := some cat, size_bytes := 0,
        is_deletable := false, restoration_command := none, warnings := [],
        errors := [ErrMsg.layer2CategoryNotFound cat] } ∧
    (v.database.store_exists = false →
      check_category_permissions v.database cat = none) ∧
    (v.database.query cat = Except.ok none →
      check_category_permissions v.database cat = none) ∧
    (∀ e, v.database.query cat = Except.error e →
      check_category_permissions v.database cat = none) := by
  refine ⟨?_, ?_, ?_, ?_⟩
  · unfold validate_deletion
    rw [h1, layer2_not_found h2]
    rfl
  · intro hs
    unfold check_category_permissions
    rw [hs]
    rfl
  · intro hq
    unfold check_category_permissions
    cases v.database.store_exists with
    | false => rfl
    | true =>
      rw [hq]
      rfl
  · intro e hq
    unfold check_category_permissions
    cases v.database.store_exists with
    | false => rfl
    | true =>
      rw [hq]
      rfl

/-- Claim C7, witness: with a missing store file, a path that passes Layer
1 and the category `node_modules` yield exactly the Layer-2 not-found
failure. -/
theorem claim_C7_witness :
    validate_deletion worldOk
      { dry_run := true, require_confirmation := true, database := dbEmpty }
      "/tmp/x" (some "node_modules") =
      { valid := false, path := "/tmp/x", category := some "node_modules",
        size_bytes := 0, is_deletable := false, restoration_command := none,
        warnings := [],
        errors := [ErrMsg.layer2CategoryNotFound "node_modules"] } ∧
    check_category_permissions dbEmpty "node_modules" = none :=
  ⟨(claim_C7_category_not_found worldOk
      { dry_run := true, require_confirmation := true, database := dbEmpty }
      "/tmp/x" "node_modules" rfl rfl).1,
   (claim_C7_category_not_found worldOk
      { dry_run := true, require_confirmation := true, database := dbEmpty }
      "/tmp/x" "node_modules" rfl rfl).2.1 rfl⟩

/-- Claim C9: `validate_batch` returns exactly one result per input path,
in input order, and the i-th result is `validate_deletion` of the i-th
path — each result is a function of its own path alone, so one path's
failure cannot change another's result. -/
theorem claim_C9_batch (w : World) (v : DeletionValidator)
    (paths : List String) (category : Option String) :
    (validate_batch w v paths category).length = paths.length ∧
    ∀ i : Nat, (validate_batch w v paths category)[i]? =
      (paths[i]?).map fun p => validate_deletion w v p category := by
  constructor
  · simp [validate_batch]
  · intro i
    simp [validate_batch]

/-- Layer 6 denies: an unreadable path only appends the Layer-6
permission error. -/
theorem layer6onward_denied (w : World) (v : DeletionValidator)
    (path : String) (r : ValidationResult)
    (ha : w.fs.access_r path = Except.ok false) :
    layer6onward w v path r =
      { r with errors := r.errors ++ [ErrMsg.layer6PermissionDenied path] } := by
  unfold layer6onward
  rw [ha]

/-- Layer 6 passes: a readable path continues into size accounting and
finalization. -/
theorem layer6onward_readable (w : World) (v : DeletionValidator)
    (path : String) (r : ValidationResult)
    (ha : w.fs.access_r path = Except.ok true) :
    layer6onward w v path r = finalizeStep v (sizeStep w path r) := by
  unfold layer6onward
  rw [ha]

/-- Claim C10: `validate_deletion` never returns `valid = true` for a path
that does not exist on the filesystem, because `os.access(path, R_OK)`
reports a nonexistent path as unreadable; when such a path even passes
Layers 1 and 2, the result carries exactly the Layer-6 permission error
and `size_bytes` stays 0 (the size-accounting step is never reached). -/
theorem claim_C10_nonexistent (w : World) (v : DeletionValidator)
    (path : String) (category : Option String)
    (h : w.fs.path_exists path = false) :
    (validate_deletion w v path category).valid = false ∧
    (∀ r : ValidationResult,
      validate_path_safety w.oracle path = Except.ok () →
      layer2 v category (initResult path category) = Sum.inr r →
      (validate_deletion w v path category).errors =
        [ErrMsg.layer6PermissionDenied path] ∧
      (validate_deletion w v path category).size_bytes = 0) := by
  have ha : w.fs.access_r path = Except.ok false :=
    w.fs.access_nonexistent path h
  constructor
  · unfold validate_deletion
    cases hps : validate_path_safety w.oracle path with
    | error e => rfl
    | ok u =>
      cases h2 : layer2 v category (initResult path category) with
      | inl r =>
        show r.valid = false
        rw [(layer2_inl_spec h2).1]
        rfl
      | inr r =>
        show (layer6onward w v path (layer4 r)).valid = false
        rw [layer6onward_denied w v path (layer4 r) ha]
        show (layer4 r).valid = false
        rw [(layer4_spec r).1, (layer2_inr_spec h2).1]
        rfl
  · intro r h1 h2
    have key : validate_deletion w v path category =
        { layer4 r with
          errors := (layer4 r).errors ++ [ErrMsg.layer6PermissionDenied path] } := by
      unfold validate_deletion
      rw [h1, h2]
      exact layer6onward_denied w v path (layer4 r) ha
    have herr : (layer4 r).errors = [] := by
      rw [(layer4_spec r).2.1, (layer2_inr_spec h2).2.1]
      rfl
    constructor
    · rw [key]
      show (layer4 r).errors ++ [ErrMsg.layer6PermissionDenied path] =
        [ErrMsg.layer6PermissionDenied path]
      rw [herr]
      rfl
    · rw [key]
      show (layer4 r).size_bytes = 0
      rw [(layer4_spec r).2.2.2.2, (layer2_inr_spec h2).2.2.2.2]
      rfl

/-- A filesystem on which no path exists; `os.access` accordingly reports
everything unreadable. -/
def fsNonexistent : FileSystem :=
  { path_exists := fun _ => false,
    access_r := fun _ => Except.ok false,
    is_file := fun _ => false,
    is_dir := fun _ => false,
    getsize := fun _ => Except.error PyExc.osError,
    walk := fun _ => [],
    access_nonexistent := fun _ _ => rfl }

/-- The world whose paths are classifiable as deletable but absent from
the filesystem. -/
def worldNonexistent : World :=
  { oracle := oracleDeletable, fs := fsNonexistent }

/-- Claim C10, witness: a nonexistent path that passes Layer 1 with no
category still fails, with exactly the Layer-6 permission error. -/
theorem claim_C10_witness :
    (validate_deletion worldNonexistent
      { dry_run := true, require_confirmation := true, database := dbNode }
      "/tmp/x" none).valid = false ∧
    (validate_deletion worldNonexistent
      { dry_run := true, require_confirmation := true, database := dbNode }
      "/tmp/x" none).errors = [ErrMsg.layer6PermissionDenied "/tmp/x"] ∧
    (validate_deletion worldNonexistent
      { dry_run := true, require_confirmation := true, database := dbNode }
      "/tmp/x" none).size_bytes = 0 :=
  ⟨(claim_C10_nonexistent worldNonexistent
      { dry_run := true, require_confirmation := true, database := dbNode }
      "/tmp/x" none rfl).1,
   (claim_C10_nonexistent worldNonexistent
      { dry_run := true, require_confirmation := true, database := dbNode }
      "/tmp/x" none rfl).2 _ rfl rfl⟩

/-- The only exception kind that can escape the walk loop is one that
neither `except (OSError, PermissionError)` handler catches. -/
theorem walkTotal_error_kind (fs : FileSystem) :
    ∀ (steps : List WalkStep) (acc : Nat) (e : PyExc),
      walkTotal fs steps acc = Except.error e → e = PyExc.otherExc := by
  intro steps
  induction steps with
  | nil =>
    intro acc e h
    simp [walkTotal] at h
  | cons s rest ih =>
    intro acc e h
    cases s with
    | file f =>
      by_cases hex : fs.path_exists f = true
      · cases hg : fs.getsize f with
        | ok n =>
          simp only [walkTotal, hex, if_true, hg] at h
          exact ih _ _ h
        | error ee =>
          cases ee with
          | osError =>
            simp only [walkTotal, hex, if_true, hg] at h
            exact ih _ _ h
          | permissionError =>
            simp only [walkTotal, hex, if_true, hg] at h
            exact ih _ _ h
          | otherExc =>
            simp only [walkTotal, hex, if_true, hg] at h
            exact (Except.error.inj h).symm
      · simp only [walkTotal, hex, if_false] at h
        exact ih _ _ h
    | abort ee =>
      cases ee with
      | osError => simp [walkTotal] at h
      | permissionError => simp [walkTotal] at h
      | otherExc =>
        simp only [walkTotal] at h
        exact (Except.error.inj h).symm

/-- When the walk completes (no iterator exception) and no size lookup for
an existing entry raises an uncaught exception kind, the loop returns the
skipping sum of the reachable sizes. -/
theorem walkTotal_complete (fs : FileSystem) :
    ∀ (steps : List WalkStep) (acc : Nat),
      (∀ e, WalkStep.abort e ∉ steps) →
      (∀ f, WalkStep.file f ∈ steps → fs.path_exists f = true →
        fs.getsize f ≠ Except.error PyExc.otherExc) →
      walkTotal fs steps acc =
        Except.ok (acc + reachableSizesSum fs steps) := by
  intro steps
  induction steps with
  | nil =>
    intro acc _ _
    simp [walkTotal, reachableSizesSum]
  | cons s rest ih =>
    intro acc hab hfile
    cases s with
    | file f =>
      have hab2 : ∀ e, WalkStep.abort e ∉ rest :=
        fun e he => hab e (List.mem_cons_of_mem _ he)
      have hfile2 : ∀ g, WalkStep.file g ∈ rest → fs.path_exists g = true →
          fs.getsize g ≠ Except.error PyExc.otherExc :=
        fun g hg => hfile g (List.mem_cons_of_mem _ hg)
      by_cases hex : fs.path_exists f = true
      · cases hg : fs.getsize f with
        | ok n =>
          simp only [walkTotal, reachableSizesSum, hex, if_true, hg,
            ih _ hab2 hfile2]
          rw [Nat.add_assoc]
        | error ee =>
          cases ee with
          | osError =>
            simp [walkTotal, reachableSizesSum, hex, hg, ih _ hab2 hfile2]
          | permissionError =>
            simp [walkTotal, reachableSizesSum, hex, hg, ih _ hab2 hfile2]
          | otherExc =>
            exact absurd hg (hfile f (List.mem_cons_self _ _) hex)
      · simp [walkTotal, reachableSizesSum, hex, ih _ hab2 hfile2]
    | abort e => exact absurd (List.mem_cons_self _ _) (hab e)

/-- Warnings only accumulate through finalization. -/
theorem finalizeStep_warn_mem (v : DeletionValidator) (r : ValidationResult)
    (x : WarnMsg) (hx : x ∈ r.warnings) :
    x ∈ (finalizeStep v r).warnings := by
  unfold finalizeStep
  split
  · exact List.mem_append_left _ hx
  · exact hx

/-- Claim C8: size accounting of `validate_deletion`. (1) When the walk
completes and no uncaught exception kind occurs, the directory size is the
sum of the sizes of all reachable regular files, entries raising
`OSError`/`PermissionError` being skipped, not failed on; (2) those caught
kinds can never escape the computation, so partial sums never abort
validation; (3) if the size computation raises an unexpected (uncaught)
exception, `validate_deletion` appends a warning — not an error — leaves
`size_bytes` at its default 0 and still returns `valid = true`. -/
theorem claim_C8_size_accounting :
    (∀ (fs : FileSystem) (path : String),
      (∀ e, WalkStep.abort e ∉ fs.walk path) →
      (∀ f, WalkStep.file f ∈ fs.walk path → fs.path_exists f = true →
        fs.getsize f ≠ Except.error PyExc.otherExc) →
      calculate_directory_size fs path =
        Except.ok (reachableSizesSum fs (fs.walk path))) ∧
    (∀ (fs : FileSystem) (path : String) (e : PyExc),
      calculate_directory_size fs path = Except.error e →
      e = PyExc.otherExc) ∧
    (∀ (w : World) (v : DeletionValidator) (path : String)
      (category : Option String) (r : ValidationResult) (e : PyExc),
      validate_path_safety w.oracle path = Except.ok () →
      layer2 v category (initResult path category) = Sum.inr r →
      w.fs.access_r path = Except.ok true →
      w.fs.is_file path = false →
      w.fs.is_dir path = true →
      calculate_directory_size w.fs path = Except.error e →
      (validate_deletion w v path category).valid = true ∧
      (validate_deletion w v path category).size_bytes = 0 ∧
      WarnMsg.couldNotCalculateSize e ∈
        (validate_deletion w v path category).warnings ∧
      (validate_deletion w v path category).errors = []) := by
  refine ⟨?_, ?_, ?_⟩
  · intro fs path hab hfile
    have h := walkTotal_complete fs (fs.walk path) 0 hab hfile
    unfold calculate_directory_size
    simpa using h
  · intro fs path e h
    exact walkTotal_error_kind fs (fs.walk path) 0 e h
  · intro w v path category r e h1 h2 ha hf hd hcalc
    have hsize : sizeStep w path (layer4 r) =
        { layer4 r with
          warnings := (layer4 r).warnings ++ [WarnMsg.couldNotCalculateSize e] } := by
      unfold sizeStep
      simp [hf, hd, hcalc]
    have key : validate_deletion w v path category =
        finalizeStep v (sizeStep w path (layer4 r)) := by
      unfold validate_deletion
      rw [h1, h2]
      exact layer6onward_readable w v path (layer4 r) ha
    rw [key, hsize]
    refine ⟨(finalizeStep_spec v _).1, ?_, ?_, ?_⟩
    · rw [(finalizeStep_spec v _).2.2.2.2]
      show (layer4 r).size_bytes = 0
      rw [(layer4_spec r).2.2.2.2, (layer2_inr_spec h2).2.2.2.2]
      rfl
    · apply finalizeStep_warn_mem
      show WarnMsg.couldNotCalculateSize e ∈
        (layer4 r).warnings ++ [WarnMsg.couldNotCalculateSize e]
      exact List.mem_append_right _ (List.mem_singleton.mpr rfl)
    · rw [(finalizeStep_spec v _).2.1]
      show (layer4 r).errors = []
      rw [(layer4_spec r).2.1, (layer2_inr_spec h2).2.1]
      rfl

/-- A directory walk with one entry whose size lookup raises
`PermissionError`: 5 + (skipped) + 7. -/
def fsWalkA : FileSystem :=
  { path_exists := fun _ => true,
    access_r := fun _ => Except.ok true,
    is_file := fun _ => false,
    is_dir := fun _ => true,
    getsize := fun f =>
      if f = "/d/a" then Except.ok 5
      else if f = "/d/b" then Except.error PyExc.permissionError
      else Except.ok 7,
    walk := fun _ =>
      [WalkStep.file "/d/a", WalkStep.file "/d/b", WalkStep.file "/d/c"],
    access_nonexistent := fun _ h => Bool.noConfusion h }

/-- A directory walk on which every size lookup raises an uncaught
exception kind. -/
def fsWalkB : FileSystem :=
  { path_exists := fun _ => true,
    access_r := fun _ => Except.ok true,
    is_file := fun _ => false,
    is_dir := fun _ => true,
    getsize := fun _ => Except.error PyExc.otherExc,
    walk := fun _ => [WalkStep.file "/d/a"],
    access_nonexistent := fun _ h => Bool.noConfusion h }

/-- A world with deletable classification over the walk of `fsWalkB`. -/
def worldWalkB : World :=
  { oracle := oracleDeletable, fs := fsWalkB }

/-- Claim C8, witness: the skipping sum on a concrete walk (permission
error skipped, 5 + 7 = 12); the error-kind application on a failing walk;
and a full validation over that failing walk coming out valid with the
size warning, zero size and no error. -/
theorem claim_C8_witness :
    calculate_directory_size fsWalkA "/d" = Except.ok 12 ∧
    PyExc.otherExc = PyExc.otherExc ∧
    ((validate_deletion worldWalkB
        { dry_run := true, require_confirmation := true, database := dbNode }
        "/d" none).valid = true ∧
      (validate_deletion worldWalkB
        { dry_run := true, require_confirmation := true, database := dbNode }
        "/d" none).size_bytes = 0 ∧
      WarnMsg.couldNotCalculateSize PyExc.otherExc ∈
        (validate_deletion worldWalkB
          { dry_run := true, require_confirmation := true, database := dbNode }
          "/d" none).warnings ∧
      (validate_deletion worldWalkB
        { dry_run := true, require_confirmation := true, database := dbNode }
        "/d" none).errors = []) :=
  ⟨Eq.trans
    (claim_C8_size_accounting.1 fsWalkA "/d"
      (by intro e he; simp [fsWalkA] at he)
      (by
        intro f hf _
        simp [fsWalkA] at hf
        rcases hf with rfl | rfl | rfl <;> simp [fsWalkA]))
    rfl,
   claim_C8_size_accounting.2.1 fsWalkB "/d" PyExc.otherExc rfl,
   claim_C8_size_accounting.2.2 worldWalkB
     { dry_run := true, require_confirmation := true, database := dbNode }
     "/d" none _ PyExc.otherExc rfl rfl rfl rfl rfl rfl⟩
